import Mathlib

/-!
Shallow embedding of the trading core of this repository
(`src/apps/trading/src/trading/core/{types,portfolio,risk,backtest}.py`).

Conventions of the embedding:
* Python floats are modelled as exact rationals (`ℚ`); decimal constants of
  the source become the corresponding rationals (`0.001 = 1/1000`, …).
* `ℚ` division is total with `x / 0 = 0`; every place where the source
  guards a denominator is embedded with the source's own guard, so the
  totalisation is never load-bearing for a stated theorem.
* Python dicts keyed by symbol become association lists with unique keys.
* `datetime` timestamps become `Int` (only ordering and equality matter).
* Fallible entry points (`Backtest.run`, `Backtest.run_vectorized`, which
  `raise` in Python) return `Except String _`.
* `float("inf")` (which appears only in `profit_factor`) is encoded by
  `Option ℚ`: `some q` is the finite value `q`, `none` is `+∞`.
-/

namespace Trading

/-- `OrderSide` enum from `types.py`. -/
inductive OrderSide
  | buy
  | sell
deriving DecidableEq, Repr

/-- `Trade` dataclass from `types.py` (metadata dropped: it is an opaque
free-form map never read by the core). -/
structure Trade where
  timestamp : Int
  symbol : String
  side : OrderSide
  quantity : ℚ
  price : ℚ
  fees : ℚ := 0
deriving DecidableEq, Repr

/-- `Trade.value` property: `quantity * price`. -/
def Trade.value (t : Trade) : ℚ := t.quantity * t.price

/-- `Order` dataclass from `types.py` (order_type and limit_price dropped:
the core's `execute_order` reads neither). -/
structure Order where
  symbol : String
  side : OrderSide
  quantity : ℚ
deriving DecidableEq, Repr

/-- `OHLCV` bar from `types.py`. -/
structure OHLCV where
  timestamp : Int
  open_ : ℚ
  high : ℚ
  low : ℚ
  close : ℚ
  volume : ℚ
deriving DecidableEq, Repr

/-- `MarketData` from `types.py`, restricted to the fields `Backtest.run`
fills: symbol, bars, current price. -/
structure MarketData where
  symbol : String
  bars : List OHLCV
  current_price : ℚ
deriving DecidableEq, Repr

/-- `Position` dataclass from `portfolio.py`. -/
structure Position where
  symbol : String
  quantity : ℚ
  avg_cost : ℚ
  current_price : ℚ := 0
deriving DecidableEq, Repr

/-- `Position.market_value` property. -/
def Position.market_value (p : Position) : ℚ := p.quantity * p.current_price

/-- `Position.cost_basis` property. -/
def Position.cost_basis (p : Position) : ℚ := p.quantity * p.avg_cost

/-- `Portfolio` dataclass from `portfolio.py`. `positions` is the
symbol-keyed dict as an association list with unique keys. -/
structure Portfolio where
  initial_capital : ℚ
  cash : ℚ
  positions : List (String × Position) := []
  trades : List Trade := []
  equity_history : List (Int × ℚ) := []
deriving DecidableEq, Repr

/-- `Portfolio.__post_init__`: a fresh portfolio starts with
`cash = initial_capital`. -/
def Portfolio.init (initial_capital : ℚ) : Portfolio :=
  { initial_capital := initial_capital, cash := initial_capital }

/-- `Portfolio.total_market_value` property. -/
def Portfolio.total_market_value (p : Portfolio) : ℚ :=
  (p.positions.map (fun e => e.2.market_value)).sum

/-- `Portfolio.total_equity` property: `cash + total_market_value`. -/
def Portfolio.total_equity (p : Portfolio) : ℚ :=
  p.cash + p.total_market_value

/-- `Portfolio._update_position` from `portfolio.py`. -/
def Portfolio.update_position (p : Portfolio) (t : Trade) : Portfolio :=
  match p.positions.lookup t.symbol with
  | none =>
    -- absent symbol: a BUY opens a position, a SELL is a silent no-op
    if t.side = OrderSide.buy then
      { p with positions := p.positions ++
          [(t.symbol, { symbol := t.symbol, quantity := t.quantity,
                        avg_cost := t.price, current_price := t.price })] }
    else p
  | some pos =>
    let pos' :=
      if t.side = OrderSide.buy then
        let total_cost := pos.cost_basis + t.value
        let total_qty := pos.quantity + t.quantity
        { pos with
            avg_cost := if 0 < total_qty then total_cost / total_qty else 0,
            quantity := total_qty,
            current_price := t.price }
      else
        { pos with quantity := pos.quantity - t.quantity, current_price := t.price }
    if pos'.quantity ≤ 0 then
      { p with positions := p.positions.filter (fun e => e.1 ≠ t.symbol) }
    else
      { p with positions :=
          p.positions.map (fun e => if e.1 = t.symbol then (e.1, pos') else e) }

/-- `Portfolio._update_cash` from `portfolio.py`. -/
def Portfolio.update_cash (p : Portfolio) (t : Trade) : Portfolio :=
  if t.side = OrderSide.buy then
    { p with cash := p.cash - (t.value + t.fees) }
  else
    { p with cash := p.cash + (t.value - t.fees) }

/-- `Portfolio.execute_order` from `portfolio.py`: fee is 0.1% of notional,
the trade is appended, then position and cash are updated. Returns the
updated portfolio together with the executed trade. -/
def Portfolio.execute_order (p : Portfolio) (order : Order) (fill_price : ℚ)
    (timestamp : Int) : Portfolio × Trade :=
  let fee_rate : ℚ := 1 / 1000
  let fees := order.quantity * fill_price * fee_rate
  let trade : Trade :=
    { timestamp := timestamp, symbol := order.symbol, side := order.side,
      quantity := order.quantity, price := fill_price, fees := fees }
  let p1 := { p with trades := p.trades ++ [trade] }
  let p2 := p1.update_position trade
  let p3 := p2.update_cash trade
  (p3, trade)

/-- `Portfolio.update_prices`: mark every held position that appears in the
price map to the supplied price. -/
def Portfolio.update_prices (p : Portfolio) (prices : List (String × ℚ)) :
    Portfolio :=
  { p with positions :=
      p.positions.map (fun e =>
        match prices.lookup e.1 with
        | some pr => (e.1, { e.2 with current_price := pr })
        | none => e) }

/-- `Portfolio.record_equity`: append `(timestamp, total_equity)`. -/
def Portfolio.record_equity (p : Portfolio) (timestamp : Int) : Portfolio :=
  { p with equity_history := p.equity_history ++ [(timestamp, p.total_equity)] }

/-- `Portfolio.get_returns`: period-over-period returns of the equity
history, `[]` when fewer than two observations exist. -/
def Portfolio.get_returns (p : Portfolio) : List ℚ :=
  if p.equity_history.length < 2 then []
  else
    let eqs := p.equity_history.map (fun e => e.2)
    (eqs.zip eqs.tail).map (fun ab => (ab.2 - ab.1) / ab.1)

/-- `np.mean` of a list (sum divided by length). -/
def listMean (l : List ℚ) : ℚ := l.sum / l.length

/-- `np.maximum.accumulate`: running maximum. -/
def runningMax (l : List ℚ) : List ℚ :=
  match l with
  | [] => []
  | x :: xs => xs.scanl max x

/-- `np.max` with the source's `if len > 0 else 0.0` guard. -/
def listMax (l : List ℚ) : ℚ :=
  match l with
  | [] => 0
  | x :: xs => xs.foldl max x

/-- The metrics dict produced by `Portfolio.get_metrics` and
`Backtest._calculate_vectorized_metrics`. `sharpe_ratio` and
`sortino_ratio` are omitted from the embedding: their `√252` factor is
irrational and no claim mentions them. `profit_factor = none` encodes the
source's `float("inf")`. -/
structure Metrics where
  total_return_pct : ℚ
  max_drawdown_pct : ℚ
  win_rate : ℚ
  profit_factor : Option ℚ
  avg_trade_pnl : ℚ
  num_trades : Nat
deriving DecidableEq, Repr

/-- `Portfolio.get_metrics` from `portfolio.py` (rational fields only). -/
def Portfolio.get_metrics (p : Portfolio) : Metrics :=
  let returns := p.get_returns
  if returns = [] then
    { total_return_pct := 0, max_drawdown_pct := 0, win_rate := 0,
      profit_factor := some 0, avg_trade_pnl := 0, num_trades := 0 }
  else
    let total_return := (p.total_equity - p.initial_capital) / p.initial_capital
    let eqs := p.equity_history.map (fun e => e.2)
    let peaks := runningMax eqs
    let drawdowns := (peaks.zip eqs).map (fun pe => (pe.1 - pe.2) / pe.1)
    let max_drawdown := listMax drawdowns
    let winning_trades := p.trades.filter
      (fun t => t.side = OrderSide.sell ∧ 0 < t.value)
    let losing_trades := p.trades.filter
      (fun t => t.side = OrderSide.sell ∧ t.value ≤ 0)
    -- NOTE: the denominator is len(self.trades), i.e. all trades
    let win_rate :=
      if p.trades ≠ [] then (winning_trades.length : ℚ) / p.trades.length else 0
    let gross_profit := (winning_trades.map Trade.value).sum
    let gross_loss := |(losing_trades.map Trade.value).sum|
    let profit_factor :=
      if 0 < gross_loss then some (gross_profit / gross_loss) else none
    let avg_trade_pnl :=
      if p.trades ≠ [] then total_return * p.initial_capital / p.trades.length
      else 0
    { total_return_pct := total_return * 100,
      max_drawdown_pct := max_drawdown * 100,
      win_rate := win_rate * 100,
      profit_factor := profit_factor,
      avg_trade_pnl := avg_trade_pnl,
      num_trades := p.trades.length }

/-- `KellyCriterion` dataclass from `risk.py`, with its defaults
(quarter-Kelly, clamp bounds 1%..10%). -/
structure KellyCriterion where
  fraction : ℚ := 1 / 4
  max_position_pct : ℚ := 1 / 10
  min_position_pct : ℚ := 1 / 100
deriving DecidableEq, Repr

/-- `np.clip(x, lo, hi)`: `max` against the floor first, then `min`
against the ceiling. -/
def npClip (x lo hi : ℚ) : ℚ := min (max x lo) hi

/-- `KellyCriterion.calculate_kelly_fraction` from `risk.py`:
`0` when `avg_loss ≤ 0`, else `(b·p − q)/b` with `b = avg_win/avg_loss`,
`p = win_rate`, `q = 1 − p`. -/
def KellyCriterion.calculate_kelly_fraction (_k : KellyCriterion)
    (win_rate avg_win avg_loss : ℚ) : ℚ :=
  if avg_loss ≤ 0 then 0
  else
    let b := avg_win / avg_loss
    let p := win_rate
    let q := 1 - p
    (b * p - q) / b

/-- `KellyCriterion.calculate_position_size` from `risk.py`: fractional
Kelly clamped to the configured bounds, but `0` whenever the full Kelly
fraction is non-positive. -/
def KellyCriterion.calculate_position_size (k : KellyCriterion)
    (win_rate avg_win avg_loss capital : ℚ) : ℚ :=
  let kelly := k.calculate_kelly_fraction win_rate avg_win avg_loss
  let adjusted_kelly := kelly * k.fraction
  let position_pct := npClip adjusted_kelly k.min_position_pct k.max_position_pct
  if kelly ≤ 0 then 0
  else capital * position_pct

/-- `RiskManager` dataclass from `risk.py` (correlation and volatility
lookback fields dropped: the core never reads them). -/
structure RiskManager where
  position_sizer : KellyCriterion := {}
  max_drawdown_pct : ℚ := 15 / 100
  daily_loss_limit_pct : ℚ := 3 / 100
  max_open_positions : Nat := 10
  peak_equity : ℚ := 0
  daily_pnl : ℚ := 0
  open_positions : Nat := 0
deriving DecidableEq, Repr

/-- `RiskManager.update_state`: one `max` against the previous peak, the
other two fields overwritten. -/
def RiskManager.update_state (rm : RiskManager) (current_equity daily_pnl : ℚ)
    (open_positions : Nat) : RiskManager :=
  { rm with
      peak_equity := max rm.peak_equity current_equity,
      daily_pnl := daily_pnl,
      open_positions := open_positions }

/-- `RiskManager.current_drawdown`: `(peak − current)/peak`, `0` when the
peak is non-positive. -/
def RiskManager.current_drawdown (rm : RiskManager) (current_equity : ℚ) : ℚ :=
  if rm.peak_equity ≤ 0 then 0
  else (rm.peak_equity - current_equity) / rm.peak_equity

/-- `RiskManager.can_trade` from `risk.py`: drawdown limit, daily loss
limit (only when a positive peak exists), position-count limit. -/
def RiskManager.can_trade (rm : RiskManager) (current_equity : ℚ) : Bool :=
  if rm.max_drawdown_pct ≤ rm.current_drawdown current_equity then false
  else if 0 < rm.peak_equity ∧
      rm.daily_loss_limit_pct ≤ -rm.daily_pnl / rm.peak_equity then false
  else if rm.max_open_positions ≤ rm.open_positions then false
  else true

/-- `RiskManager.calculate_position_size` from `risk.py`: the sizer's
output derated by the drawdown multiplier and, when volatility is
supplied and positive, by `min(1, 0.02/volatility)`. -/
def RiskManager.calculate_position_size (rm : RiskManager)
    (win_rate avg_win avg_loss capital : ℚ) (volatility : Option ℚ) : ℚ :=
  let base_size :=
    rm.position_sizer.calculate_position_size win_rate avg_win avg_loss capital
  let drawdown := rm.current_drawdown capital
  let drawdown_multiplier := max 0 (1 - drawdown / rm.max_drawdown_pct)
  let vol_multiplier :=
    match volatility with
    | some v => if 0 < v then min 1 ((2 / 100) / v) else 1
    | none => 1
  base_size * drawdown_multiplier * vol_multiplier

/-- Modelled from the spec: `trading/core/strategy.py` is not among the
sources (only its callers and tests are). `SignalType` per §3:
LONG, SHORT, CLOSE, HOLD. -/
inductive SignalType
  | long
  | short
  | close
  | hold
deriving DecidableEq, Repr

/-- Modelled from the spec: the `Signal` value object of the missing
`strategy.py` per §3 — signal type, symbol, strength and confidence in
`[0,1]` (target/stop price and metadata dropped: the backtest loop reads
neither). -/
structure Signal where
  signal_type : SignalType
  symbol : String
  strength : ℚ := 0
  confidence : ℚ := 0
deriving DecidableEq, Repr

/-- Modelled from the spec: `Signal.to_order` of the missing
`strategy.py`. Per §3 an Order is "derived from a Signal plus a computed
size"; per §4.4 a position is opened on LONG and closed on SHORT/CLOSE,
and HOLD produces no order. -/
def Signal.to_order (s : Signal) (quantity : ℚ) : Option Order :=
  match s.signal_type with
  | SignalType.hold => none
  | SignalType.long => some { symbol := s.symbol, side := OrderSide.buy, quantity := quantity }
  | SignalType.short => some { symbol := s.symbol, side := OrderSide.sell, quantity := quantity }
  | SignalType.close => some { symbol := s.symbol, side := OrderSide.sell, quantity := quantity }

/-- Modelled from the spec: the `Strategy` contract of the missing
`strategy.py` per §4.1 — a name and a pure
`generate_signal(history, timestamp) -> Signal`. The strategy's own
append-only signal history is threaded through the backtest loop state
instead of being mutated in place. -/
structure Strategy where
  name : String
  generate_signal : MarketData → Int → Signal

/-- The price `DataFrame` handed to `Backtest.run`/`run_vectorized`:
`isDatetimeIndex` models `isinstance(data.index, pd.DatetimeIndex)` and
`rows` the `(timestamp, close)` pairs of the frame (the loop reads only
the price column). -/
structure DataFrame where
  isDatetimeIndex : Bool
  rows : List (Int × ℚ)
deriving DecidableEq, Repr

/-- `Backtest._create_bars`: a close-only frame yields bars whose OHLC all
fall back to the close and whose volume falls back to 0. -/
def createBars (rows : List (Int × ℚ)) : List OHLCV :=
  rows.map (fun r =>
    { timestamp := r.1, open_ := r.2, high := r.2, low := r.2, close := r.2,
      volume := 0 })

/-- `BacktestResult` dataclass from `backtest.py` (dates as `Int`
timestamps, equity curve as the recorded `(timestamp, equity)` pairs). -/
structure BacktestResult where
  strategy_name : String
  start_date : Int
  end_date : Int
  initial_capital : ℚ
  final_equity : ℚ
  metrics : Metrics
  equity_curve : List (Int × ℚ)
  trades : List Trade
  signals : List (Int × Signal)
deriving Repr

/-- `Backtest` dataclass from `backtest.py` with its defaults. -/
structure Backtest where
  strategy : Strategy
  initial_capital : ℚ := 10000
  risk_manager : RiskManager := {}
  commission_rate : ℚ := 1 / 1000

/-- The mutable state threaded through one `Backtest.run` loop:
portfolio, risk manager, the rolling win/loss tallies, the strategy's
signal history, and the bars iterated so far (`data.iloc[:i+1]`).
`updateCalls` counts executions of the `risk_manager.update_state` call
site and `gatedBars` the bars short-circuited by the `can_trade` gate;
both are pure instrumentation read by no transition. -/
structure RunState where
  portfolio : Portfolio
  risk : RiskManager
  wins : List ℚ
  losses : List ℚ
  signals : List (Int × Signal)
  seen : List (Int × ℚ)
  updateCalls : Nat
  gatedBars : Nat

/-- `Backtest._calculate_position_size`: 0 on HOLD; a fixed 2%-of-cash
bootstrap until 10 win/loss observations exist; otherwise the risk
manager's dollar size scaled by signal strength and confidence, converted
to shares. -/
def Backtest.calc_position_size (_bt : Backtest) (risk : RiskManager)
    (port : Portfolio) (signal : Signal) (price : ℚ)
    (wins losses : List ℚ) : ℚ :=
  if signal.signal_type = SignalType.hold then 0
  else if wins.length + losses.length < 10 then
    port.cash * (2 / 100) / price
  else
    let win_rate := (wins.length : ℚ) / ((wins.length : ℚ) + losses.length)
    let avg_win := if wins ≠ [] then listMean wins else 0
    let avg_loss := if losses ≠ [] then listMean losses else 1
    let position_value :=
      risk.calculate_position_size win_rate avg_win avg_loss port.cash none
    position_value * signal.strength * signal.confidence / price

/-- One iteration of the `Backtest.run` bar loop: mark to market, risk
gate (short-circuiting to `record_equity`), signal, size, optional
execution with win/loss tallying, `record_equity`, `update_state`. -/
def Backtest.step (bt : Backtest) (symbol : String) (st : RunState)
    (bar : Int × ℚ) : RunState :=
  let timestamp := bar.1
  let current_price := bar.2
  let seen' := st.seen ++ [bar]
  let p1 := st.portfolio.update_prices [(symbol, current_price)]
  if ¬ st.risk.can_trade p1.total_equity then
    -- gated bar: record equity and continue; no signal, no update_state
    { st with
        portfolio := p1.record_equity timestamp,
        seen := seen',
        gatedBars := st.gatedBars + 1 }
  else
    let market_data : MarketData :=
      { symbol := symbol, bars := createBars seen', current_price := current_price }
    let signal := bt.strategy.generate_signal market_data timestamp
    let signals' := st.signals ++ [(timestamp, signal)]
    let position_size :=
      bt.calc_position_size st.risk p1 signal current_price st.wins st.losses
    let executed : Portfolio × List ℚ × List ℚ :=
      if 0 < position_size ∧ signal.signal_type ≠ SignalType.hold then
        match signal.to_order position_size with
        | none => (p1, st.wins, st.losses)
        | some order =>
          let pt := p1.execute_order order current_price timestamp
          let p2 := pt.1
          let trade := pt.2
          if trade.side = OrderSide.sell then
            match p2.positions.lookup symbol with
            | some pos =>
              let pnl := trade.value - pos.cost_basis
              if 0 < pnl then (p2, st.wins ++ [pnl], st.losses)
              else (p2, st.wins, st.losses ++ [|pnl|])
            | none => (p2, st.wins, st.losses)
          else (p2, st.wins, st.losses)
      else (p1, st.wins, st.losses)
    let p3 := executed.1.record_equity timestamp
    let risk' := st.risk.update_state p3.total_equity 0 p3.positions.length
    { portfolio := p3,
      risk := risk',
      wins := executed.2.1,
      losses := executed.2.2,
      signals := signals',
      seen := seen',
      updateCalls := st.updateCalls + 1,
      gatedBars := st.gatedBars }

/-- The initial loop state of `Backtest.run`: fresh portfolio, the
backtest's risk manager with `peak_equity` overwritten by the initial
capital, empty tallies. -/
def Backtest.initState (bt : Backtest) : RunState :=
  { portfolio := Portfolio.init bt.initial_capital,
    risk := { bt.risk_manager with peak_equity := bt.initial_capital },
    wins := [],
    losses := [],
    signals := [],
    seen := [],
    updateCalls := 0,
    gatedBars := 0 }

/-- The whole bar loop of `Backtest.run` as a fold of `Backtest.step`. -/
def Backtest.runState (bt : Backtest) (data : DataFrame) (symbol : String) :
    RunState :=
  data.rows.foldl (bt.step symbol) bt.initState

/-- `Backtest.run` from `backtest.py`: `ValueError` when the index is not
a `DatetimeIndex`; `IndexError` (from `data.index[0]`) on an empty frame;
otherwise the packaged result of the bar loop. -/
def Backtest.run (bt : Backtest) (data : DataFrame) (symbol : String) :
    Except String BacktestResult :=
  if ¬ data.isDatetimeIndex then Except.error "Data must have DatetimeIndex"
  else
    match data.rows with
    | [] => Except.error "index 0 is out of bounds"
    | first :: rest =>
      let fin := bt.runState data symbol
      Except.ok
        { strategy_name := bt.strategy.name,
          start_date := first.1,
          end_date := (rest.getLastD first).1,
          initial_capital := bt.initial_capital,
          final_equity := fin.portfolio.total_equity,
          metrics := fin.portfolio.get_metrics,
          equity_curve := fin.portfolio.equity_history,
          trades := fin.portfolio.trades,
          signals := fin.signals }

/-- `np.diff(prices)/prices[:-1]`: bar-over-bar simple returns. -/
def barReturns (prices : List ℚ) : List ℚ :=
  (prices.zip prices.tail).map (fun ab => (ab.2 - ab.1) / ab.1)

/-- `np.abs(np.diff(np.concatenate([[0], positions, [0]])))`. -/
def positionChanges (positions : List ℚ) : List ℚ :=
  let padded := 0 :: (positions ++ [0])
  (padded.zip padded.tail).map (fun ab => |ab.2 - ab.1|)

/-- `Backtest._calculate_vectorized_metrics` (rational fields only):
`win_rate` is the share of bars with positive strategy return,
`profit_factor`, `avg_trade_pnl` and `num_trades` are hard-coded zero. -/
def vectorizedMetrics (returns : List ℚ) (equity : List ℚ) : Metrics :=
  let total_return := (equity.getLastD 0 - equity.headD 0) / equity.headD 0
  let peaks := runningMax equity
  let drawdowns := (peaks.zip equity).map (fun pe => (pe.1 - pe.2) / pe.1)
  let max_dd := listMax drawdowns
  let win_rate :=
    if returns.length ≠ 0 then
      ((returns.filter (fun r => 0 < r)).length : ℚ) / returns.length
    else 0
  { total_return_pct := total_return * 100,
    max_drawdown_pct := max_dd * 100,
    win_rate := win_rate * 100,
    profit_factor := some 0,
    avg_trade_pnl := 0,
    num_trades := 0 }

/-- `Backtest.run_vectorized` from `backtest.py`: per-bar signal values,
an implied binary long/flat position series, commission on position
changes, a cumulative-product equity curve, an empty trade list and empty
signal history. -/
def Backtest.run_vectorized (bt : Backtest) (data : DataFrame)
    (signal_func : List (Int × ℚ) → List Int) (_symbol : String) :
    Except String BacktestResult :=
  if ¬ data.isDatetimeIndex then Except.error "Data must have DatetimeIndex"
  else
    match data.rows with
    | [] => Except.error "index 0 is out of bounds"
    | first :: rest =>
      let signals := signal_func data.rows
      let prices := data.rows.map (fun r => r.2)
      let returns := barReturns prices
      let positions := signals.dropLast.map (fun s => if s = 1 then (1 : ℚ) else 0)
      let strategy_returns := List.zipWith (· * ·) positions returns
      let commission_costs :=
        ((positionChanges positions).take returns.length).map
          (fun c => c * bt.commission_rate)
      let net_returns := List.zipWith (· - ·) strategy_returns commission_costs
      let equity := net_returns.scanl (fun e r => e * (1 + r)) bt.initial_capital
      Except.ok
        { strategy_name := bt.strategy.name ++ "_vectorized",
          start_date := first.1,
          end_date := (rest.getLastD first).1,
          initial_capital := bt.initial_capital,
          final_equity := equity.getLastD bt.initial_capital,
          metrics := vectorizedMetrics net_returns equity,
          equity_curve := data.rows.zip equity |>.map (fun re => (re.1.1, re.2)),
          trades := [],
          signals := [] }

/-! ## Concrete fixtures used by witnesses and counterexamples -/

/-- The `AlwaysHoldStrategy` of the repository's test-suite: every signal
is HOLD. -/
def holdStrategy : Strategy :=
  { name := "AlwaysHold",
    generate_signal := fun md _ =>
      { signal_type := SignalType.hold, symbol := md.symbol } }

/-- A backtest of the always-HOLD strategy with all defaults
(initial capital 10000). -/
def holdBT : Backtest := { strategy := holdStrategy }

/-- A backtest whose risk manager starts at its open-position limit, so
`can_trade` is false from the first bar on. -/
def gatedBT : Backtest :=
  { strategy := holdStrategy, risk_manager := { open_positions := 10 } }

/-- A two-bar frame with a `DatetimeIndex` whose timestamps are NOT
strictly increasing (5 then 3). -/
def dfUnordered : DataFrame :=
  { isDatetimeIndex := true, rows := [(5, 100), (3, 100)] }

/-- A portfolio with a flat two-point equity history and no trades: its
gross realized loss is zero. -/
def pfNoTrades : Portfolio :=
  { initial_capital := 10000, cash := 10000,
    equity_history := [(0, 10000), (1, 10000)] }

/-- A portfolio with one BUY and one winning SELL (both of value 10) and
a flat two-point equity history. -/
def pfBuySell : Portfolio :=
  { initial_capital := 10000, cash := 10000,
    trades :=
      [{ timestamp := 0, symbol := "A", side := OrderSide.buy,
         quantity := 1, price := 10 },
       { timestamp := 1, symbol := "A", side := OrderSide.sell,
         quantity := 1, price := 10 }],
    equity_history := [(0, 10000), (1, 10000)] }

/-- `true` iff a fallible entry point returned a result rather than
raising. -/
def isOk {A : Type} (e : Except String A) : Bool :=
  match e with
  | Except.ok _ => true
  | Except.error _ => false

/-! ## Helper lemmas -/

/-- Marking positions to market never touches cash. -/
@[simp] lemma update_prices_cash (p : Portfolio) (prices : List (String × ℚ)) :
    (p.update_prices prices).cash = p.cash := rfl

/-- Marking positions to market never touches the trade log. -/
@[simp] lemma update_prices_trades (p : Portfolio) (prices : List (String × ℚ)) :
    (p.update_prices prices).trades = p.trades := rfl

/-- Marking positions to market never touches the equity history. -/
@[simp] lemma update_prices_equity_history (p : Portfolio)
    (prices : List (String × ℚ)) :
    (p.update_prices prices).equity_history = p.equity_history := rfl

/-- A portfolio holding no positions still holds none after a mark. -/
@[simp] lemma update_prices_positions_nil (p : Portfolio)
    (prices : List (String × ℚ)) (h : p.positions = []) :
    (p.update_prices prices).positions = [] := by
  simp [Portfolio.update_prices, h]

/-- Recording equity touches only the equity history. -/
@[simp] lemma record_equity_cash (p : Portfolio) (ts : Int) :
    (p.record_equity ts).cash = p.cash := rfl

/-- Recording equity leaves the position map alone. -/
@[simp] lemma record_equity_positions (p : Portfolio) (ts : Int) :
    (p.record_equity ts).positions = p.positions := rfl

/-- Recording equity leaves the trade log alone. -/
@[simp] lemma record_equity_trades (p : Portfolio) (ts : Int) :
    (p.record_equity ts).trades = p.trades := rfl

/-- Recording equity appends exactly one observation. -/
@[simp] lemma record_equity_equity_history (p : Portfolio) (ts : Int) :
    (p.record_equity ts).equity_history
      = p.equity_history ++ [(ts, p.total_equity)] := rfl

/-- With no open positions, total equity is exactly the cash balance. -/
lemma total_equity_of_positions_nil (p : Portfolio) (h : p.positions = []) :
    p.total_equity = p.cash := by
  simp [Portfolio.total_equity, Portfolio.total_market_value, h]

/-- `_update_position` never touches the equity history. -/
@[simp] lemma update_position_equity_history (p : Portfolio) (t : Trade) :
    (p.update_position t).equity_history = p.equity_history := by
  unfold Portfolio.update_position
  split <;> (try dsimp only) <;> split_ifs <;> rfl

/-- `_update_position` never touches the trade log. -/
@[simp] lemma update_position_trades (p : Portfolio) (t : Trade) :
    (p.update_position t).trades = p.trades := by
  unfold Portfolio.update_position
  split <;> (try dsimp only) <;> split_ifs <;> rfl

/-- `_update_cash` never touches the equity history. -/
@[simp] lemma update_cash_equity_history (p : Portfolio) (t : Trade) :
    (p.update_cash t).equity_history = p.equity_history := by
  unfold Portfolio.update_cash
  split_ifs <;> rfl

/-- `_update_cash` never touches the trade log. -/
@[simp] lemma update_cash_trades (p : Portfolio) (t : Trade) :
    (p.update_cash t).trades = p.trades := by
  unfold Portfolio.update_cash
  split_ifs <;> rfl

/-- `_update_position` never touches the cash balance. -/
@[simp] lemma update_position_cash (p : Portfolio) (t : Trade) :
    (p.update_position t).cash = p.cash := by
  unfold Portfolio.update_position
  split <;> (try dsimp only) <;> split_ifs <;> rfl

/-- `_update_cash` never touches the position map. -/
@[simp] lemma update_cash_positions (p : Portfolio) (t : Trade) :
    (p.update_cash t).positions = p.positions := by
  unfold Portfolio.update_cash
  split_ifs <;> rfl

/-- `execute_order` never touches the equity history. -/
@[simp] lemma execute_order_equity_history (p : Portfolio) (o : Order)
    (fp : ℚ) (ts : Int) :
    (p.execute_order o fp ts).1.equity_history = p.equity_history := by
  simp [Portfolio.execute_order]

/-- Every branch of one bar of the `run` loop appends exactly one entry to
the equity history. -/
lemma step_equity_history_length (bt : Backtest) (symbol : String)
    (st : RunState) (bar : Int × ℚ) :
    (bt.step symbol st bar).portfolio.equity_history.length
      = st.portfolio.equity_history.length + 1 := by
  simp only [Backtest.step]
  split
  · simp
  · (repeat' split) <;> simp

/-- Over any list of bars the loop appends one equity observation per
bar. -/
lemma foldl_equity_history_length (bt : Backtest) (symbol : String) :
    ∀ (rows : List (Int × ℚ)) (st : RunState),
      (rows.foldl (bt.step symbol) st).portfolio.equity_history.length
        = st.portfolio.equity_history.length + rows.length := by
  intro rows
  induction rows with
  | nil => intro st; simp
  | cons bar rest ih =>
    intro st
    simp only [List.foldl_cons]
    rw [ih, step_equity_history_length, List.length_cons]
    omega

/-- Each bar either performs the `update_state` call or is gated, never
both and never neither. -/
lemma step_counts (bt : Backtest) (symbol : String) (st : RunState)
    (bar : Int × ℚ) :
    (bt.step symbol st bar).updateCalls + (bt.step symbol st bar).gatedBars
      = st.updateCalls + st.gatedBars + 1 := by
  simp only [Backtest.step]
  split
  · simp only []
    omega
  · simp only []
    omega

/-- One bar of the loop never decreases the risk manager's peak equity:
the gated branch leaves the risk state alone, the other branch takes a
single `max` against the previous peak. -/
lemma step_peak_mono (bt : Backtest) (symbol : String) (st : RunState)
    (bar : Int × ℚ) :
    st.risk.peak_equity ≤ (bt.step symbol st bar).risk.peak_equity := by
  simp only [Backtest.step]
  split
  · exact le_refl _
  · simp [RiskManager.update_state]

/-- Call-site counts over the whole loop: bars split exactly into
`update_state` bars and gated bars. -/
lemma foldl_counts (bt : Backtest) (symbol : String) :
    ∀ (rows : List (Int × ℚ)) (st : RunState),
      (rows.foldl (bt.step symbol) st).updateCalls
          + (rows.foldl (bt.step symbol) st).gatedBars
        = st.updateCalls + st.gatedBars + rows.length := by
  intro rows
  induction rows with
  | nil => intro st; simp
  | cons bar rest ih =>
    intro st
    simp only [List.foldl_cons]
    rw [ih, step_counts, List.length_cons]
    omega

/-- An always-HOLD strategy leaves positions empty and cash and the trade
log untouched across one bar. -/
lemma step_hold_state (bt : Backtest) (symbol : String)
    (hhold : ∀ md ts, (bt.strategy.generate_signal md ts).signal_type
      = SignalType.hold)
    (st : RunState) (bar : Int × ℚ)
    (hpos : st.portfolio.positions = []) :
    (bt.step symbol st bar).portfolio.positions = [] ∧
    (bt.step symbol st bar).portfolio.cash = st.portfolio.cash ∧
    (bt.step symbol st bar).portfolio.trades = st.portfolio.trades := by
  simp only [Backtest.step]
  split
  · refine ⟨?_, rfl, rfl⟩
    simp [hpos]
  · refine ⟨?_, ?_, ?_⟩ <;> simp [hhold, hpos]

/-- An always-HOLD strategy leaves positions empty and cash and the trade
log untouched across the whole loop. -/
lemma foldl_hold_state (bt : Backtest) (symbol : String)
    (hhold : ∀ md ts, (bt.strategy.generate_signal md ts).signal_type
      = SignalType.hold) :
    ∀ (rows : List (Int × ℚ)) (st : RunState),
      st.portfolio.positions = [] →
      ((rows.foldl (bt.step symbol) st).portfolio.positions = [] ∧
       (rows.foldl (bt.step symbol) st).portfolio.cash = st.portfolio.cash ∧
       (rows.foldl (bt.step symbol) st).portfolio.trades
         = st.portfolio.trades) := by
  intro rows
  induction rows with
  | nil => intro st h; exact ⟨h, rfl, rfl⟩
  | cons bar rest ih =>
    intro st h
    simp only [List.foldl_cons]
    have hs := step_hold_state bt symbol hhold st bar h
    have hr := ih (bt.step symbol st bar) hs.1
    exact ⟨hr.1, hr.2.1.trans hs.2.1, hr.2.2.trans hs.2.2⟩

/-! ## Claim theorems -/

/-- C1 (counterexample): a portfolio whose equity history yields one
return and whose gross realized loss is zero (it has no trades at all)
gets `profit_factor = none` (the encoding of `float("inf")`) from
`get_metrics`, not `0` as the claim states. -/
theorem C1_cex :
    pfNoTrades.get_returns ≠ [] ∧
    (pfNoTrades.get_metrics).profit_factor ≠ some 0 := by
  constructor
  · norm_num [pfNoTrades, Portfolio.get_returns]
  · have h : (pfNoTrades.get_metrics).profit_factor = none := by
      norm_num [pfNoTrades, Portfolio.get_metrics, Portfolio.get_returns]
    rw [h]
    simp

/-- C1 (amended): for every portfolio whose equity history yields at
least one return, `get_metrics` returns `profit_factor = +∞` (encoded
`none`), not `0`, when the gross realized loss — the absolute sum of the
values of SELL trades valued `≤ 0` — is zero. -/
theorem C1_amended (p : Portfolio) (h : p.get_returns ≠ [])
    (hl : |((p.trades.filter
        (fun t => t.side = OrderSide.sell ∧ t.value ≤ 0)).map Trade.value).sum|
      = 0) :
    (p.get_metrics).profit_factor = none := by
  simp only [Portfolio.get_metrics]
  rw [if_neg h]
  simp only [hl]
  norm_num

/-- C1 (witness for the amended theorem): the concrete portfolio of the
counterexample satisfies the hypotheses, and the amended conclusion holds
there. -/
theorem C1_amended_witness :
    (pfNoTrades.get_metrics).profit_factor = none :=
  C1_amended pfNoTrades (by norm_num [pfNoTrades, Portfolio.get_returns])
    (by simp [pfNoTrades])

/-- C2 (counterexample): `pfBuySell` has exactly one SELL trade and it is
winning, so the claim predicts win rate `1/1` (as a percentage, `100`),
but `get_metrics` reports `50` because its denominator counts the BUY
trade as well. -/
theorem C2_cex :
    (pfBuySell.trades.filter
        (fun t => t.side = OrderSide.sell ∧ 0 < t.value)).length = 1 ∧
    (pfBuySell.trades.filter (fun t => t.side = OrderSide.sell)).length = 1 ∧
    (pfBuySell.get_metrics).win_rate = 50 ∧
    (50 : ℚ) ≠ 1 ∧ (50 : ℚ) ≠ 100 := by
  refine ⟨?_, ?_, ?_, by norm_num, by norm_num⟩
  · norm_num [pfBuySell, Trade.value, List.filter_cons]
    try decide
  · norm_num [pfBuySell, List.filter_cons]
    try decide
  · norm_num [pfBuySell, Portfolio.get_metrics, Portfolio.get_returns,
      Trade.value, List.filter_cons]
    norm_num [show (OrderSide.buy = OrderSide.sell) = False from by simp]
    simp

/-- C2 (amended): for every portfolio with a non-empty trade list and at
least one return, the reported `win_rate` is the number of SELL trades
with positive value divided by the number of ALL trades (BUY trades count
in the denominator), times 100. -/
theorem C2_amended (p : Portfolio) (h1 : p.trades ≠ [])
    (h2 : p.get_returns ≠ []) :
    (p.get_metrics).win_rate =
      ((p.trades.filter
          (fun t => t.side = OrderSide.sell ∧ 0 < t.value)).length : ℚ)
        / p.trades.length * 100 := by
  simp only [Portfolio.get_metrics]
  rw [if_neg h2]
  simp only [if_pos h1]

/-- C2 (witness for the amended theorem): on `pfBuySell` the amended
formula is satisfied (`50 = 1/2 × 100`). -/
theorem C2_amended_witness :
    (pfBuySell.get_metrics).win_rate =
      ((pfBuySell.trades.filter
          (fun t => t.side = OrderSide.sell ∧ 0 < t.value)).length : ℚ)
        / pfBuySell.trades.length * 100 :=
  C2_amended pfBuySell (by simp [pfBuySell])
    (by norm_num [pfBuySell, Portfolio.get_returns])

/-- C3: `KellyCriterion.calculate_position_size` returns 0 whenever the
full Kelly fraction is non-positive (in particular whenever
`avg_loss ≤ 0`), regardless of `min_position_pct`; and whenever the full
Kelly fraction is positive it returns `capital` times the fractional
Kelly value clamped into `[min_position_pct, max_position_pct]`. -/
theorem C3 (k : KellyCriterion) (win_rate avg_win avg_loss capital : ℚ)
    (_hcap : 0 < capital) :
    (avg_loss ≤ 0 →
      k.calculate_position_size win_rate avg_win avg_loss capital = 0) ∧
    (k.calculate_kelly_fraction win_rate avg_win avg_loss ≤ 0 →
      k.calculate_position_size win_rate avg_win avg_loss capital = 0) ∧
    (0 < k.calculate_kelly_fraction win_rate avg_win avg_loss →
      k.calculate_position_size win_rate avg_win avg_loss capital =
        capital * npClip
          (k.calculate_kelly_fraction win_rate avg_win avg_loss * k.fraction)
          k.min_position_pct k.max_position_pct) := by
  refine ⟨?_, ?_, ?_⟩
  · intro h
    have h0 : k.calculate_kelly_fraction win_rate avg_win avg_loss = 0 := by
      simp only [KellyCriterion.calculate_kelly_fraction, if_pos h]
    simp only [KellyCriterion.calculate_position_size, h0]
    norm_num
  · intro h
    simp only [KellyCriterion.calculate_position_size, if_pos h]
  · intro h
    simp only [KellyCriterion.calculate_position_size]
    rw [if_neg (not_le.mpr h)]

/-- C3 (witness): with the default sizer, `win_rate = 0.6`,
`avg_win = avg_loss = 100` and capital 10000, the Kelly fraction is
positive and the returned size is `10000 × clip(0.2 × 0.25) = 500`. -/
theorem C3_witness :
    (0 : ℚ) < 10000 ∧
    KellyCriterion.calculate_position_size {} (3 / 5) 100 100 10000 = 500 := by
  refine ⟨by norm_num, ?_⟩
  have hk : (0 : ℚ) < KellyCriterion.calculate_kelly_fraction {} (3 / 5) 100 100 := by
    norm_num [KellyCriterion.calculate_kelly_fraction]
  rw [(C3 {} (3 / 5) 100 100 10000 (by norm_num)).2.2 hk]
  norm_num [KellyCriterion.calculate_kelly_fraction, npClip]

/-- C5: a SELL order with positive quantity on a symbol absent from the
position map executes without error: the trade is appended, the position
map is unchanged, and cash increases by the trade value minus fees —
cash is credited for selling an asset the portfolio does not hold. -/
theorem C5 (p : Portfolio) (o : Order) (fill_price : ℚ) (ts : Int)
    (hside : o.side = OrderSide.sell) (_hq : 0 < o.quantity)
    (habs : p.positions.lookup o.symbol = none) :
    (p.execute_order o fill_price ts).1.positions = p.positions ∧
    (p.execute_order o fill_price ts).1.trades
      = p.trades ++ [(p.execute_order o fill_price ts).2] ∧
    (p.execute_order o fill_price ts).1.cash
      = p.cash + ((p.execute_order o fill_price ts).2.value
          - (p.execute_order o fill_price ts).2.fees) := by
  refine ⟨?_, ?_, ?_⟩
  · simp [Portfolio.execute_order, Portfolio.update_position, habs, hside]
  · simp [Portfolio.execute_order]
  · simp [Portfolio.execute_order, Portfolio.update_cash, hside, Trade.value]

/-- C5 (witness): selling 2 units of the unheld symbol "B" at price 50
from a fresh 10000-cash portfolio leaves no positions, logs one trade,
and credits `100 − 0.1` of cash. -/
theorem C5_witness :
    ((Portfolio.init 10000).execute_order
        { symbol := "B", side := OrderSide.sell, quantity := 2 } 50 7).1.positions
      = [] ∧
    ((Portfolio.init 10000).execute_order
        { symbol := "B", side := OrderSide.sell, quantity := 2 } 50 7).1.trades
      = [] ++ [((Portfolio.init 10000).execute_order
          { symbol := "B", side := OrderSide.sell, quantity := 2 } 50 7).2] ∧
    ((Portfolio.init 10000).execute_order
        { symbol := "B", side := OrderSide.sell, quantity := 2 } 50 7).1.cash
      = 10000 + (((Portfolio.init 10000).execute_order
          { symbol := "B", side := OrderSide.sell, quantity := 2 } 50 7).2.value
        - ((Portfolio.init 10000).execute_order
          { symbol := "B", side := OrderSide.sell, quantity := 2 } 50 7).2.fees) :=
  C5 (Portfolio.init 10000)
    { symbol := "B", side := OrderSide.sell, quantity := 2 } 50 7
    rfl (by norm_num) rfl

/-- C10: `calculate_kelly_fraction` returns 0 when `avg_loss ≤ 0`, equals
`(b·p − q)/b` with `b = avg_win/avg_loss`, `p = win_rate`, `q = 1 − p`
when `avg_loss > 0`, is exactly 0 at `win_rate = 1/2` with
`avg_win = avg_loss > 0`, and is exactly `1/5` at `win_rate = 0.6`,
`avg_win = avg_loss = 100`. -/
theorem C10 (k : KellyCriterion) (win_rate avg_win avg_loss v : ℚ) :
    (avg_loss ≤ 0 → k.calculate_kelly_fraction win_rate avg_win avg_loss = 0) ∧
    (0 < avg_loss →
      k.calculate_kelly_fraction win_rate avg_win avg_loss =
        ((avg_win / avg_loss) * win_rate - (1 - win_rate))
          / (avg_win / avg_loss)) ∧
    (0 < v → k.calculate_kelly_fraction (1 / 2) v v = 0) ∧
    k.calculate_kelly_fraction (3 / 5) 100 100 = 1 / 5 := by
  refine ⟨?_, ?_, ?_, ?_⟩
  · intro h
    simp only [KellyCriterion.calculate_kelly_fraction, if_pos h]
  · intro h
    simp only [KellyCriterion.calculate_kelly_fraction]
    rw [if_neg (not_le.mpr h)]
  · intro hv
    simp only [KellyCriterion.calculate_kelly_fraction]
    rw [if_neg (not_le.mpr hv), div_self (ne_of_gt hv)]
    norm_num
  · norm_num [KellyCriterion.calculate_kelly_fraction]

/-- C10 (witness): the hypotheses are satisfiable — `avg_loss = −1 ≤ 0`
gives 0, and `v = 7 > 0` gives 0 at the 50% win rate. -/
theorem C10_witness :
    ((-1 : ℚ) ≤ 0 ∧
      KellyCriterion.calculate_kelly_fraction {} (1 / 2) 100 (-1) = 0) ∧
    ((0 : ℚ) < 7 ∧
      KellyCriterion.calculate_kelly_fraction {} (1 / 2) 7 7 = 0) :=
  ⟨⟨by norm_num, (C10 {} (1 / 2) 100 (-1) 7).1 (by norm_num)⟩,
   ⟨by norm_num, (C10 {} (1 / 2) 100 (-1) 7).2.2.1 (by norm_num)⟩⟩

/-- C4: for every price frame and every strategy that always returns a
HOLD signal, a successful `Backtest.run` yields an empty trade list and
`final_equity` exactly equal to `initial_capital` — no commission is ever
charged on a bar without a fill. -/
theorem C4 (bt : Backtest) (data : DataFrame) (symbol : String)
    (hhold : ∀ md ts, (bt.strategy.generate_signal md ts).signal_type
      = SignalType.hold)
    (r : BacktestResult) (hr : bt.run data symbol = Except.ok r) :
    r.trades = [] ∧ r.final_equity = bt.initial_capital := by
  unfold Backtest.run at hr
  split at hr
  · exact absurd hr (by simp)
  · split at hr
    · exact absurd hr (by simp)
    · injection hr with h
      subst h
      constructor
      · show (bt.runState data symbol).portfolio.trades = []
        exact (foldl_hold_state bt symbol hhold data.rows bt.initState rfl).2.2
      · show (bt.runState data symbol).portfolio.total_equity
          = bt.initial_capital
        have h1 := (foldl_hold_state bt symbol hhold data.rows bt.initState rfl).1
        have h2 := (foldl_hold_state bt symbol hhold data.rows bt.initState rfl).2.1
        rw [show bt.runState data symbol
          = data.rows.foldl (bt.step symbol) bt.initState from rfl]
        rw [total_equity_of_positions_nil _ h1]
        exact h2

/-- C4 (witness): the always-HOLD backtest on a concrete two-bar frame
returns a result with no trades and final equity 10000. -/
theorem C4_witness :
    ∃ r, holdBT.run { isDatetimeIndex := true, rows := [(1, 100), (2, 200)] } "A"
        = Except.ok r ∧ r.trades = [] ∧ r.final_equity = 10000 := by
  obtain ⟨r, hr⟩ : ∃ r, holdBT.run
      { isDatetimeIndex := true, rows := [(1, 100), (2, 200)] } "A"
      = Except.ok r := ⟨_, rfl⟩
  have h := C4 holdBT _ "A" (fun _ _ => rfl) r hr
  exact ⟨r, hr, h.1, h.2⟩

/-- C6 (counterexample): a frame whose index IS a `DatetimeIndex` but
whose timestamps are out of order (5 then 3) is NOT rejected:
`Backtest.run` completes and returns a `BacktestResult`. The only input
validation is the `isinstance(data.index, pd.DatetimeIndex)` check. -/
theorem C6_cex :
    ¬ List.Chain' (fun a b => a < b) (dfUnordered.rows.map Prod.fst) ∧
    isOk (holdBT.run dfUnordered "A") = true := by
  constructor
  · intro hch
    rw [show dfUnordered.rows.map Prod.fst = [5, 3] from rfl] at hch
    simp only [List.chain'_cons, List.chain'_singleton, and_true] at hch
    omega
  · rfl

/-- C6 (amended): `Backtest.run` fails up front only when the index is
not a `DatetimeIndex`; it performs no timestamp-ordering validation, so a
`DatetimeIndex` frame with duplicate or out-of-order timestamps is
simulated normally and (for a well-behaved, always-HOLD strategy and
positive capital, conditions under which the Python loop raises nothing
else) a result is returned. -/
theorem C6_amended (bt : Backtest) (data : DataFrame) (symbol : String)
    (_hhold : ∀ md ts, (bt.strategy.generate_signal md ts).signal_type
      = SignalType.hold)
    (_hcap : 0 < bt.initial_capital) :
    (data.isDatetimeIndex = false →
      bt.run data symbol = Except.error "Data must have DatetimeIndex") ∧
    (data.isDatetimeIndex = true → data.rows ≠ [] →
      isOk (bt.run data symbol) = true) := by
  constructor
  · intro h
    unfold Backtest.run
    rw [if_pos]
    simp [h]
  · intro h hne
    unfold Backtest.run
    rw [if_neg (by simp [h])]
    split
    · next heq => exact absurd heq hne
    · rfl

/-- C6 (witness for the amended theorem): the out-of-order frame of the
counterexample is accepted and simulated by the always-HOLD backtest. -/
theorem C6_amended_witness :
    isOk (holdBT.run dfUnordered "A") = true :=
  (C6_amended holdBT dfUnordered "A" (fun _ _ => rfl)
      (by norm_num [holdBT])).2 rfl (by simp [dfUnordered])

/-- C7: every successful `Backtest.run` produces an equity curve with
exactly one `(timestamp, equity)` entry per input bar — `record_equity`
is called exactly once per bar, including bars gated by
`RiskManager.can_trade`. -/
theorem C7 (bt : Backtest) (data : DataFrame) (symbol : String)
    (r : BacktestResult) (hr : bt.run data symbol = Except.ok r) :
    r.equity_curve.length = data.rows.length := by
  unfold Backtest.run at hr
  split at hr
  · exact absurd hr (by simp)
  · split at hr
    · exact absurd hr (by simp)
    · injection hr with h
      subst h
      show (bt.runState data symbol).portfolio.equity_history.length
        = data.rows.length
      rw [show bt.runState data symbol
        = data.rows.foldl (bt.step symbol) bt.initState from rfl]
      rw [foldl_equity_history_length]
      simp [Backtest.initState, Portfolio.init]

/-- C7 (witness): the concrete two-bar always-HOLD run records exactly
two equity observations. -/
theorem C7_witness :
    ∃ r, holdBT.run { isDatetimeIndex := true, rows := [(1, 100), (2, 200)] } "A"
        = Except.ok r ∧ r.equity_curve.length = 2 := by
  obtain ⟨r, hr⟩ : ∃ r, holdBT.run
      { isDatetimeIndex := true, rows := [(1, 100), (2, 200)] } "A"
      = Except.ok r := ⟨_, rfl⟩
  exact ⟨r, hr, C7 holdBT _ "A" r hr⟩

/-- C8 (counterexample): on a one-bar run whose risk manager starts at
its open-position limit, the gate closes the bar and `update_state` is
never called — `updateCalls = 0` over 1 bar, refuting "updated exactly
once per bar". -/
theorem C8_cex :
    (gatedBT.runState { isDatetimeIndex := true, rows := [(1, 100)] }
        "A").updateCalls = 0 ∧
    ({ isDatetimeIndex := true, rows := [(1, 100)] } : DataFrame).rows.length
      = 1 := by
  constructor
  · norm_num [gatedBT, holdStrategy, Backtest.runState, Backtest.initState,
      Backtest.step, RiskManager.can_trade, RiskManager.current_drawdown,
      Portfolio.init, Portfolio.total_equity, Portfolio.total_market_value,
      Portfolio.update_prices, Portfolio.record_equity, List.foldl]
  · rfl

/-- C8 (amended): `update_state` is executed exactly once per bar on
which `can_trade` is true and is skipped on gated bars (the per-bar call
count and the gated-bar count always sum to the number of bars), and the
risk manager's `peak_equity` is monotonically non-decreasing across every
bar of the run (each update takes a single `max` against the previous
value). -/
theorem C8_amended (bt : Backtest) (data : DataFrame) (symbol : String) :
    (bt.runState data symbol).updateCalls + (bt.runState data symbol).gatedBars
      = data.rows.length ∧
    ∀ st bar, st.risk.peak_equity ≤ (bt.step symbol st bar).risk.peak_equity := by
  constructor
  · rw [show bt.runState data symbol
      = data.rows.foldl (bt.step symbol) bt.initState from rfl]
    rw [foldl_counts]
    simp [Backtest.initState]
  · exact fun st bar => step_peak_mono bt symbol st bar

/-- C9 (counterexample): a two-bar rising frame with an always-long
signal function gives `win_rate = 100` (the share of bars with positive
strategy return, times 100), refuting the claim that the vectorized mode
reports `win_rate = 0`. -/
theorem C9_cex :
    (match holdBT.run_vectorized
        { isDatetimeIndex := true, rows := [(1, 100), (2, 200)] }
        (fun _ => [1, 1]) "A" with
      | Except.ok r => r.metrics.win_rate = 100 ∧ (100 : ℚ) ≠ 0
      | Except.error _ => False) := by
  norm_num [holdBT, holdStrategy, Backtest.run_vectorized, barReturns,
    positionChanges, vectorizedMetrics, listMax, runningMax, List.filter_cons]

/-- C9 (amended): every successful `run_vectorized` reports an empty
trade list, an empty signal history, `profit_factor = 0` and
`num_trades = 0`; but `win_rate` is NOT zero in general — it is the
percentage of bars with positive strategy return. -/
theorem C9_amended (bt : Backtest) (data : DataFrame)
    (signal_func : List (Int × ℚ) → List Int) (symbol : String)
    (r : BacktestResult)
    (hr : bt.run_vectorized data signal_func symbol = Except.ok r) :
    r.trades = [] ∧ r.signals = [] ∧
    r.metrics.profit_factor = some 0 ∧ r.metrics.num_trades = 0 := by
  unfold Backtest.run_vectorized at hr
  split at hr
  · exact absurd hr (by simp)
  · split at hr
    · exact absurd hr (by simp)
    · injection hr with h
      subst h
      exact ⟨rfl, rfl, rfl, rfl⟩

/-- C9 (witness for the amended theorem): the counterexample's vectorized
run indeed reports empty trades and zero trade-count metrics. -/
theorem C9_amended_witness :
    ∃ r, holdBT.run_vectorized
        { isDatetimeIndex := true, rows := [(1, 100), (2, 200)] }
        (fun _ => [1, 1]) "A" = Except.ok r ∧
      r.trades = [] ∧ r.signals = [] ∧
      r.metrics.profit_factor = some 0 ∧ r.metrics.num_trades = 0 := by
  obtain ⟨r, hr⟩ : ∃ r, holdBT.run_vectorized
      { isDatetimeIndex := true, rows := [(1, 100), (2, 200)] }
      (fun _ => [1, 1]) "A" = Except.ok r := ⟨_, rfl⟩
  have h := C9_amended holdBT _ (fun _ => [1, 1]) "A" r hr
  exact ⟨r, hr, h.1, h.2.1, h.2.2.1, h.2.2.2⟩

end Trading
